import Mathlib

/-!
# Verification of the turn-based battle resolver

Shallow embedding of `src/battle-sim/src/app/page.tsx`: the type chart,
the damage resolver, the battle state machine (move submission, the
delayed resolution callback, reset), the battle log, and the opponent
policy.  JavaScript numbers are modelled as rationals; the ambient
random draws (`Math.random()`) are passed in as explicit parameters.
-/

namespace BattleSim

/-- `type Side = "player" | "opponent"` (page.tsx line 12). -/
inductive Side
  | player
  | opponent
  deriving DecidableEq, Repr

/-- `type MoveType = "Fire" | ... | "Rock"` (page.tsx lines 14-22). -/
inductive MoveType
  | Fire
  | Water
  | Grass
  | Electric
  | Ice
  | Psychic
  | Fairy
  | Rock
  deriving DecidableEq, Repr

/-- `interface Move` (page.tsx lines 24-30). -/
structure Move where
  name : String
  type : MoveType
  power : ℚ
  accuracy : ℚ
  description : String
  deriving DecidableEq, Repr

/-- `interface Pokemon` together with `interface BattlePokemon extends
Pokemon { energy }` (page.tsx lines 32-43). -/
structure Pokemon where
  name : String
  hp : ℚ
  maxHp : ℚ
  types : List MoveType
  moves : List Move
  flair : String
  energy : ℚ
  deriving DecidableEq, Repr

/-- `interface BattleState` (page.tsx lines 45-50); `victor?` is optional. -/
structure BattleState where
  player : Pokemon
  opponent : Pokemon
  turn : Side
  victor : Option Side
  deriving DecidableEq, Repr

/-- `TYPE_CHART` (page.tsx lines 131-140): a partial lookup from attack
type and defender type to a multiplier; absent pairs are `none`. -/
def TYPE_CHART : MoveType → MoveType → Option ℚ
  | .Fire, .Grass => some 2
  | .Fire, .Ice => some 2
  | .Fire, .Rock => some (1/2)
  | .Fire, .Water => some (1/2)
  | .Fire, .Fire => some (1/2)
  | .Water, .Fire => some 2
  | .Water, .Rock => some 2
  | .Water, .Grass => some (1/2)
  | .Water, .Electric => some (1/2)
  | .Grass, .Water => some 2
  | .Grass, .Rock => some 2
  | .Grass, .Fire => some (1/2)
  | .Grass, .Grass => some (1/2)
  | .Electric, .Water => some 2
  | .Electric, .Grass => some (1/2)
  | .Ice, .Grass => some 2
  | .Ice, .Water => some (1/2)
  | .Ice, .Fire => some (1/2)
  | .Ice, .Rock => some 1
  | .Psychic, .Psychic => some (1/2)
  | .Fairy, .Psychic => some 1
  | .Fairy, .Fire => some (1/2)
  | .Rock, .Fire => some 2
  | .Rock, .Electric => some 1
  | .Rock, .Grass => some 1
  | .Rock, .Water => some 1
  | _, _ => none

/-- `createPokemon` (page.tsx lines 142-146): builds a battle combatant
from a template, with `hp` set to `maxHp` and `energy` to 100. -/
def createPokemon (name : String) (maxHp : ℚ) (types : List MoveType)
    (moves : List Move) (flair : String) : Pokemon :=
  { name := name, hp := maxHp, maxHp := maxHp, types := types,
    moves := moves, flair := flair, energy := 100 }

/-- Player move 1 (page.tsx lines 153-159). -/
def flareCascade : Move :=
  { name := "Flare Cascade", type := .Fire, power := 36, accuracy := 94,
    description := "A cascading wave of golden flame that engulfs the arena." }

/-- Player move 2 (page.tsx lines 160-166). -/
def solarBloom : Move :=
  { name := "Solar Bloom", type := .Grass, power := 28, accuracy := 100,
    description := "Harnesses sunlight to bloom radiant petals that heal slightly." }

/-- Player move 3 (page.tsx lines 167-173). -/
def auroraPulse : Move :=
  { name := "Aurora Pulse", type := .Psychic, power := 32, accuracy := 96,
    description := "A prismatic pulse that disorients the foe." }

/-- Player move 4 (page.tsx lines 174-180). -/
def stellarCrest : Move :=
  { name := "Stellar Crest", type := .Fairy, power := 30, accuracy := 98,
    description := "A ribbon of stardust that empowers Solaris’ aura." }

/-- `PLAYER_TEAM` (page.tsx lines 148-183). -/
def PLAYER_TEAM : Pokemon :=
  createPokemon "Solaris" 260 [.Fire, .Grass]
    [flareCascade, solarBloom, auroraPulse, stellarCrest]
    "Charismatic Sun Drake"

/-- Opponent move 1 (page.tsx lines 190-196). -/
def nebulaTorrent : Move :=
  { name := "Nebula Torrent", type := .Water, power := 34, accuracy := 97,
    description := "A spiralling column of crystal water." }

/-- Opponent move 2 (page.tsx lines 197-203). -/
def ionCrash : Move :=
  { name := "Ion Crash", type := .Electric, power := 35, accuracy := 92,
    description := "Charged lances of electricity crash into the opponent." }

/-- Opponent move 3 (page.tsx lines 204-210). -/
def frostboundWake : Move :=
  { name := "Frostbound Wake", type := .Ice, power := 27, accuracy := 99,
    description := "Icy shards ride atop the wave with a chilling finish." }

/-- Opponent move 4 (page.tsx lines 211-217). -/
def anchorBloom : Move :=
  { name := "Anchor Bloom", type := .Grass, power := 24, accuracy := 100,
    description := "Sea flora entangles the foe, siphoning their energy." }

/-- `OPPONENT_TEAM` (page.tsx lines 185-220). -/
def OPPONENT_TEAM : Pokemon :=
  createPokemon "Tidal Vanguard" 270 [.Water, .Electric]
    [nebulaTorrent, ionCrash, frostboundWake, anchorBloom]
    "Mariner Leviathan"

/-- `INITIAL_STATE` (page.tsx lines 222-226); `victor` is absent. -/
def INITIAL_STATE : BattleState :=
  { player := PLAYER_TEAM, opponent := OPPONENT_TEAM,
    turn := .player, victor := none }

/-- `const clamp = (value, min, max) => Math.max(min, Math.min(max, value))`
(page.tsx line 240). -/
def clamp (value lo hi : ℚ) : ℚ :=
  max lo (min hi value)

/-- `Math.round` on a rational: round half toward positive infinity. -/
def jsRound (q : ℚ) : ℤ :=
  ⌊q + 1/2⌋

/-- Result record of `calculateDamage` (page.tsx line 245). -/
structure DamageResult where
  damage : ℚ
  effectiveness : ℚ
  crit : Bool
  deriving DecidableEq, Repr

/-- `calculateDamage` (page.tsx lines 242-257).  The two ambient random
draws — `variation = 0.85 + Math.random() * 0.2` and
`crit = Math.random() < 0.1` — are passed in as parameters. -/
def calculateDamage (variation : ℚ) (crit : Bool) (move : Move)
    (defender : Pokemon) : DamageResult :=
  let base := move.power
  let multiplier := defender.types.foldl
    (fun product typing => product * ((TYPE_CHART move.type typing).getD 1)) 1
  let damage : ℚ := (jsRound (base * variation * (if crit then 1.5 else 1) * multiplier) : ℤ)
  { damage := clamp damage 12 90, effectiveness := multiplier, crit := crit }

/-- `effectMessage` (page.tsx lines 259-263). -/
def effectMessage (effectiveness : ℚ) : Option String :=
  if effectiveness > 1.5 then some "It’s super effective!"
  else if effectiveness < 1 then some "It’s not very effective…"
  else none

/-- `side === "player" ? "opponent" : "player"` (page.tsx line 408). -/
def Side.other : Side → Side
  | .player => .opponent
  | .opponent => .player

/-- Read the combatant of a side out of `BattleState` (`current[side]`,
`state[side]`, page.tsx lines 400 and 416). -/
def BattleState.getSide (b : BattleState) : Side → Pokemon
  | .player => b.player
  | .opponent => b.opponent

/-- Replace the combatant of a side (`{ ...state, [defenderSide]: ... }`,
page.tsx line 430). -/
def BattleState.setSide (b : BattleState) : Side → Pokemon → BattleState
  | .player, p => { b with player := p }
  | .opponent, p => { b with opponent := p }

/-- The messages built by the resolution callback (page.tsx lines
447-452): an array of optional strings with `null` holes removed.
(`filter(Boolean)` in the source also drops empty strings, but every
message built here begins with a non-empty literal.) -/
def turnMessages (attacker defender : Pokemon) (move : Move) (crit : Bool)
    (effectiveness : ℚ) (nextHp : ℚ) : List String :=
  ([some (attacker.name ++ " used " ++ move.name ++ "!"),
    if crit then some "A critical hit!" else none,
    effectMessage effectiveness,
    if nextHp ≤ 0 then some (defender.name ++ " fainted.") else none]).filterMap id

/-- A scheduled resolution: the `window.setTimeout` closure created at
line 414 of page.tsx captures the submitting side and its move. -/
structure Pending where
  side : Side
  move : Move
  deriving DecidableEq, Repr

/-- The mutable state of the `Home` component (page.tsx lines 370-380):
the battle state (`battle`, mirrored by `battleRef.current`), the log,
the busy flag, and the queue of resolution timeouts not yet fired.
Projectiles are presentation only and are not modelled. -/
structure SysState where
  battle : BattleState
  battleLog : List String
  isResolving : Bool
  pending : List Pending
  deriving DecidableEq, Repr

/-- The initial battle log (page.tsx lines 371-373 and 392). -/
def initialLog : List String :=
  ["The arena hums to life as Solaris faces the Tidal Vanguard."]

/-- The component's initial state (page.tsx lines 370-375). -/
def initSys : SysState :=
  { battle := INITIAL_STATE, battleLog := initialLog,
    isResolving := false, pending := [] }

/-- The synchronous part of `resolveTurn` (page.tsx lines 397-414): the
guard `if (current.victor || isResolving || current[side].hp <= 0) return`,
then `setIsResolving(true)`, `setBattle(prev => ({ ...prev, turn: side }))`
and scheduling of the resolution timeout.  Note that the guard never
consults `current.turn`. -/
def resolveTurn (side : Side) (move : Move) (s : SysState) : SysState :=
  if s.battle.victor.isSome ∨ s.isResolving = true ∨ (s.battle.getSide side).hp ≤ 0 then
    s
  else
    { s with battle := { s.battle with turn := side },
             isResolving := true,
             pending := s.pending ++ [{ side := side, move := move }] }

/-- The body of the 620 ms resolution timeout (page.tsx lines 414-460),
firing the oldest scheduled resolution.  It re-reads `battleRef.current`,
re-checks only `attacker.hp <= 0 || state.victor`, and otherwise computes
damage, clamps the defender's health, updates turn and victor, and
prepends the messages to the log capped at 8.  The trailing 300 ms
timeout only clears projectiles and the busy flag, so it is collapsed
into this step.  The random draws are passed in as parameters. -/
def fireResolution (variation : ℚ) (crit : Bool) (s : SysState) : SysState :=
  match s.pending with
  | [] => s
  | p :: rest =>
    let state := s.battle
    let attacker := state.getSide p.side
    let defender := state.getSide p.side.other
    if attacker.hp ≤ 0 ∨ state.victor.isSome then
      { s with isResolving := false, pending := rest }
    else
      let result := calculateDamage variation crit p.move defender
      let nextHp := clamp (defender.hp - result.damage) 0 defender.maxHp
      let updated : BattleState :=
        { state.setSide p.side.other { defender with hp := nextHp } with
            turn := p.side.other,
            victor := if nextHp ≤ 0 then some p.side else state.victor }
      let messages := turnMessages attacker defender p.move result.crit
        result.effectiveness nextHp
      { battle := updated,
        battleLog := (messages ++ s.battleLog).take 8,
        isResolving := false,
        pending := rest }

/-- `resetBattle` (page.tsx lines 385-395): replaces the battle state with
fresh combatants, restores the initial log, clears projectiles and the
busy flag.  The resolution timeouts already scheduled by `resolveTurn`
are NOT cleared, so `pending` is left untouched. -/
def resetBattle (s : SysState) : SysState :=
  { battle := { player := { PLAYER_TEAM with hp := PLAYER_TEAM.maxHp },
                opponent := { OPPONENT_TEAM with hp := OPPONENT_TEAM.maxHp },
                turn := .player, victor := none },
    battleLog := initialLog,
    isResolving := false,
    pending := s.pending }

/-- The opponent policy's move selection (page.tsx lines 468-471):
`moves[Math.floor(Math.random() * moves.length)]`, with the random draw
`r ∈ [0, 1)` passed in as a parameter. -/
def chooseMove (r : ℚ) (combatant : Pokemon) : Option Move :=
  combatant.moves[(⌊r * (combatant.moves.length : ℚ)⌋).toNat]?

/-- The guard of the opponent-policy effect (page.tsx line 466):
`battle.turn === "opponent" && !battle.victor && !isResolving`. -/
def opponentPolicyFires (s : SysState) : Bool :=
  decide (s.battle.turn = Side.opponent) && s.battle.victor.isNone && !s.isResolving

/-- The states reachable from the initial component state by move
submissions, resolution-timeout firings, and resets. -/
inductive Reachable : SysState → Prop
  | init : Reachable initSys
  | submit (side : Side) (move : Move) {s : SysState} :
      Reachable s → Reachable (resolveTurn side move s)
  | fire (variation : ℚ) (crit : Bool) {s : SysState} :
      Reachable s → Reachable (fireResolution variation crit s)
  | reset {s : SysState} :
      Reachable s → Reachable (resetBattle s)

/-! ## Helper lemmas -/

theorem Side.other_other (sd : Side) : sd.other.other = sd := by
  cases sd <;> rfl

theorem getSide_setSide_self (b : BattleState) (sd : Side) (q : Pokemon) :
    (b.setSide sd q).getSide sd = q := by
  cases sd <;> rfl

theorem getSide_setSide_other (b : BattleState) (sd : Side) (q : Pokemon) :
    (b.setSide sd.other q).getSide sd = b.getSide sd := by
  cases sd <;> rfl

theorem getSide_update_tv (b : BattleState) (t : Side) (v : Option Side) (sd : Side) :
    ({ b with turn := t, victor := v } : BattleState).getSide sd = b.getSide sd := by
  cases sd <;> rfl

theorem foldl_mul_eq_prod (f : MoveType → ℚ) (l : List MoveType) (a : ℚ) :
    l.foldl (fun product typing => product * f typing) a = a * (l.map f).prod := by
  induction l generalizing a with
  | nil => simp
  | cons x xs ih => simp [ih, mul_assoc]

/-- The fully evaluated accepted branch of the resolution callback:
when a resolution is pending, the attacker read back from the current
state has positive health and no victor is set, `fireResolution`
applies the clamped health delta to the defender, flips the turn, sets
the victor iff the new health is 0, and prepends the messages to the
log capped at 8 entries. -/
theorem fireResolution_accepted (variation : ℚ) (crit : Bool) (s : SysState)
    (p : Pending) (rest : List Pending)
    (hpend : s.pending = p :: rest)
    (hatk : 0 < (s.battle.getSide p.side).hp)
    (hvic : s.battle.victor = none) :
    fireResolution variation crit s =
      { battle :=
          { s.battle.setSide p.side.other
              { s.battle.getSide p.side.other with
                  hp := clamp ((s.battle.getSide p.side.other).hp -
                    (calculateDamage variation crit p.move
                      (s.battle.getSide p.side.other)).damage)
                    0 (s.battle.getSide p.side.other).maxHp } with
              turn := p.side.other,
              victor := if clamp ((s.battle.getSide p.side.other).hp -
                    (calculateDamage variation crit p.move
                      (s.battle.getSide p.side.other)).damage)
                    0 (s.battle.getSide p.side.other).maxHp ≤ 0
                then some p.side else none },
        battleLog := (turnMessages (s.battle.getSide p.side)
            (s.battle.getSide p.side.other) p.move crit
            (calculateDamage variation crit p.move
              (s.battle.getSide p.side.other)).effectiveness
            (clamp ((s.battle.getSide p.side.other).hp -
              (calculateDamage variation crit p.move
                (s.battle.getSide p.side.other)).damage)
              0 (s.battle.getSide p.side.other).maxHp) ++
          s.battleLog).take 8,
        isResolving := false,
        pending := rest } := by
  rcases s with ⟨b, log, res, pend⟩
  dsimp only at hpend hatk hvic ⊢
  subst hpend
  dsimp only [fireResolution]
  have hguard : ¬((b.getSide p.side).hp ≤ 0 ∨ b.victor.isSome = true) := by
    simp only [hvic, Option.isSome_none, Bool.false_eq_true, or_false, not_le]
    exact hatk
  rw [if_neg hguard, hvic]
  rfl

/-! ## Concrete states used as witnesses -/

/-- A state identical to the initial one except that it is the
opponent's turn; no victor, no resolution in flight. -/
def wrongTurnState : SysState :=
  { battle := { INITIAL_STATE with turn := .opponent },
    battleLog := initialLog, isResolving := false, pending := [] }

/-- A concluded state: the victor is already set. -/
def concludedState : SysState :=
  { battle := { INITIAL_STATE with victor := some Side.player },
    battleLog := initialLog, isResolving := false, pending := [] }

/-- A state with one scheduled resolution in flight. -/
def pendingState : SysState :=
  { battle := INITIAL_STATE, battleLog := initialLog, isResolving := true,
    pending := [{ side := Side.player, move := flareCascade }] }

/-! ## Claims -/

/-- C3: for every move, defender, variation factor in [0.85, 1.05) and
crit flag, the resolved damage equals round(power × variation × (1.5 if
crit else 1) × effectiveness) clamped to [12, 90], and always lies in
[12, 90] inclusive. -/
theorem c3_damage_formula_and_bounds (move : Move) (defender : Pokemon)
    (variation : ℚ) (crit : Bool)
    (_hlo : 0.85 ≤ variation) (_hhi : variation < 1.05) :
    (calculateDamage variation crit move defender).damage =
      clamp ((jsRound (move.power * variation * (if crit then 1.5 else 1) *
        (calculateDamage variation crit move defender).effectiveness) : ℤ) : ℚ) 12 90 ∧
    12 ≤ (calculateDamage variation crit move defender).damage ∧
    (calculateDamage variation crit move defender).damage ≤ 90 := by
  refine ⟨rfl, ?_, ?_⟩
  · show (12 : ℚ) ≤ max 12 _
    exact le_max_left _ _
  · show max (12 : ℚ) (min 90 _) ≤ 90
    exact max_le (by norm_num) (min_le_left _ _)

/-- Witness for C3 at a concrete draw: Flare Cascade against the Tidal
Vanguard with variation 9/10 and no crit. -/
theorem c3_damage_formula_and_bounds_witness :
    (calculateDamage (9/10) false flareCascade OPPONENT_TEAM).damage =
      clamp ((jsRound (flareCascade.power * (9/10) * (if false then 1.5 else 1) *
        (calculateDamage (9/10) false flareCascade OPPONENT_TEAM).effectiveness) : ℤ) : ℚ) 12 90 ∧
    12 ≤ (calculateDamage (9/10) false flareCascade OPPONENT_TEAM).damage ∧
    (calculateDamage (9/10) false flareCascade OPPONENT_TEAM).damage ≤ 90 :=
  c3_damage_formula_and_bounds flareCascade OPPONENT_TEAM (9/10) false
    (by norm_num) (by norm_num)

/-- C4: the effectiveness returned by the damage resolver is the product
over all of the defender's types of the type-chart lookup (missing
entries count as 1); for a dual-type defender it is the product of the
two per-type multipliers. -/
theorem c4_effectiveness_product (variation : ℚ) (crit : Bool) (move : Move)
    (defender : Pokemon) :
    ((calculateDamage variation crit move defender).effectiveness =
      (defender.types.map (fun typing => (TYPE_CHART move.type typing).getD 1)).prod) ∧
    (∀ t1 t2 : MoveType, defender.types = [t1, t2] →
      (calculateDamage variation crit move defender).effectiveness =
        ((TYPE_CHART move.type t1).getD 1) * ((TYPE_CHART move.type t2).getD 1)) := by
  have hprod : (calculateDamage variation crit move defender).effectiveness =
      (defender.types.map (fun typing => (TYPE_CHART move.type typing).getD 1)).prod := by
    simp only [calculateDamage]
    rw [foldl_mul_eq_prod, one_mul]
  refine ⟨hprod, fun t1 t2 h => ?_⟩
  rw [hprod, h]
  simp

/-- Witness for C4: Fire-type Flare Cascade against the dual-type
(Water, Electric) Tidal Vanguard. -/
theorem c4_effectiveness_product_witness :
    (calculateDamage (9/10) false flareCascade OPPONENT_TEAM).effectiveness =
      ((TYPE_CHART flareCascade.type MoveType.Water).getD 1) *
      ((TYPE_CHART flareCascade.type MoveType.Electric).getD 1) :=
  (c4_effectiveness_product (9/10) false flareCascade OPPONENT_TEAM).2
    MoveType.Water MoveType.Electric rfl

/-- C6: in any state where a victor is set, or a resolution is in
flight, or the submitting side has 0 health, a move submission is a
no-op: neither the battle state nor the battle log changes. -/
theorem c6_rejected_submission_noop (s : SysState) (side : Side) (move : Move)
    (h : s.battle.victor.isSome = true ∨ s.isResolving = true ∨
      (s.battle.getSide side).hp = 0) :
    resolveTurn side move s = s ∧
    (resolveTurn side move s).battle = s.battle ∧
    (resolveTurn side move s).battleLog = s.battleLog := by
  have hg : s.battle.victor.isSome = true ∨ s.isResolving = true ∨
      (s.battle.getSide side).hp ≤ 0 := by
    rcases h with h | h | h
    · exact Or.inl h
    · exact Or.inr (Or.inl h)
    · exact Or.inr (Or.inr (le_of_eq h))
  have heq : resolveTurn side move s = s := by
    unfold resolveTurn
    rw [if_pos hg]
  exact ⟨heq, by rw [heq], by rw [heq]⟩

/-- Witness for C6: a submission into a concluded battle is ignored. -/
theorem c6_rejected_submission_noop_witness :
    resolveTurn Side.player flareCascade concludedState = concludedState ∧
    (resolveTurn Side.player flareCascade concludedState).battle = concludedState.battle ∧
    (resolveTurn Side.player flareCascade concludedState).battleLog = concludedState.battleLog :=
  c6_rejected_submission_noop concludedState Side.player flareCascade (Or.inl rfl)

/-- C1 (counterexample): with no victor, no resolution in flight, and a
healthy submitter, a submission by the side whose turn it is NOT is
accepted, not rejected: the battle state changes (its turn becomes the
submitting side). -/
theorem c1_wrong_turn_counterexample :
    wrongTurnState.battle.turn = Side.opponent ∧
    wrongTurnState.battle.victor = none ∧
    wrongTurnState.isResolving = false ∧
    0 < (wrongTurnState.battle.getSide Side.player).hp ∧
    (resolveTurn Side.player flareCascade wrongTurnState).battle.turn = Side.player ∧
    resolveTurn Side.player flareCascade wrongTurnState ≠ wrongTurnState := by
  refine ⟨rfl, rfl, rfl,
    by norm_num [wrongTurnState, INITIAL_STATE, PLAYER_TEAM, createPokemon, BattleState.getSide],
    ?_, ?_⟩
  · norm_num [resolveTurn, wrongTurnState, INITIAL_STATE, PLAYER_TEAM, createPokemon,
      BattleState.getSide]
  · intro h
    have hturn := congrArg (fun st => st.battle.turn) h
    norm_num [resolveTurn, wrongTurnState, INITIAL_STATE, PLAYER_TEAM, createPokemon,
      BattleState.getSide] at hturn
    exact Side.noConfusion hturn

/-- C1 (amended): `resolveTurn` performs no turn-legality check.  A
submission while no victor is set, no resolution is in flight, and the
submitter has positive health is accepted whichever side's turn it is:
the turn is set to the submitting side, the busy flag is raised, and the
resolution is scheduled. -/
theorem c1_no_turn_validation (s : SysState) (side : Side) (move : Move)
    (hvic : s.battle.victor = none) (hres : s.isResolving = false)
    (hhp : 0 < (s.battle.getSide side).hp) :
    resolveTurn side move s =
      { s with battle := { s.battle with turn := side },
               isResolving := true,
               pending := s.pending ++ [{ side := side, move := move }] } := by
  have hguard : ¬(s.battle.victor.isSome = true ∨ s.isResolving = true ∨
      (s.battle.getSide side).hp ≤ 0) := by
    simp only [hvic, hres, Option.isSome_none, Bool.false_eq_true, false_or, not_le]
    exact hhp
  unfold resolveTurn
  rw [if_neg hguard]

/-- Witness for the amended C1: the out-of-turn submission from
`wrongTurnState` is accepted. -/
theorem c1_no_turn_validation_witness :
    resolveTurn Side.player flareCascade wrongTurnState =
      { wrongTurnState with
          battle := { wrongTurnState.battle with turn := Side.player },
          isResolving := true,
          pending := wrongTurnState.pending ++
            [{ side := Side.player, move := flareCascade }] } :=
  c1_no_turn_validation wrongTurnState Side.player flareCascade rfl rfl
    (by norm_num [wrongTurnState, INITIAL_STATE, PLAYER_TEAM, createPokemon, BattleState.getSide])

/-- C5: for every accepted resolution, the defender's new health is the
old health minus the resolved damage clamped to [0, maxHealth]; if it is
0 the victor becomes the submitting side (the battle is concluded), and
otherwise no victor is set and the turn flips to the opposing side. -/
theorem c5_health_victor_turn_update (variation : ℚ) (crit : Bool)
    (s : SysState) (p : Pending) (rest : List Pending)
    (hpend : s.pending = p :: rest)
    (hatk : 0 < (s.battle.getSide p.side).hp)
    (hvic : s.battle.victor = none)
    (hmax : 0 ≤ (s.battle.getSide p.side.other).maxHp) :
    ((fireResolution variation crit s).battle.getSide p.side.other).hp =
      clamp ((s.battle.getSide p.side.other).hp -
        (calculateDamage variation crit p.move (s.battle.getSide p.side.other)).damage)
        0 (s.battle.getSide p.side.other).maxHp ∧
    0 ≤ ((fireResolution variation crit s).battle.getSide p.side.other).hp ∧
    ((fireResolution variation crit s).battle.getSide p.side.other).hp ≤
      (s.battle.getSide p.side.other).maxHp ∧
    (((fireResolution variation crit s).battle.getSide p.side.other).hp = 0 →
      (fireResolution variation crit s).battle.victor = some p.side) ∧
    (((fireResolution variation crit s).battle.getSide p.side.other).hp ≠ 0 →
      (fireResolution variation crit s).battle.victor = none ∧
      (fireResolution variation crit s).battle.turn = p.side.other) := by
  rw [fireResolution_accepted variation crit s p rest hpend hatk hvic]
  simp only [getSide_update_tv, getSide_setSide_self]
  refine ⟨trivial, le_max_left _ _, max_le hmax (min_le_left _ _), ?_, ?_⟩
  · intro h0
    show (if _ ≤ (0 : ℚ) then some p.side else none) = some p.side
    rw [if_pos (le_of_eq h0)]
  · intro hne
    refine ⟨?_, trivial⟩
    show (if _ ≤ (0 : ℚ) then some p.side else none) = none
    rw [if_neg]
    exact fun hle => hne (le_antisymm hle (le_max_left _ _))

/-- Witness for C5 at a concrete pending resolution. -/
theorem c5_health_victor_turn_update_witness :
    ((fireResolution (9/10) false pendingState).battle.getSide Side.opponent).hp =
      clamp ((pendingState.battle.getSide Side.opponent).hp -
        (calculateDamage (9/10) false flareCascade
          (pendingState.battle.getSide Side.opponent)).damage)
        0 (pendingState.battle.getSide Side.opponent).maxHp ∧
    0 ≤ ((fireResolution (9/10) false pendingState).battle.getSide Side.opponent).hp ∧
    ((fireResolution (9/10) false pendingState).battle.getSide Side.opponent).hp ≤
      (pendingState.battle.getSide Side.opponent).maxHp ∧
    (((fireResolution (9/10) false pendingState).battle.getSide Side.opponent).hp = 0 →
      (fireResolution (9/10) false pendingState).battle.victor = some Side.player) ∧
    (((fireResolution (9/10) false pendingState).battle.getSide Side.opponent).hp ≠ 0 →
      (fireResolution (9/10) false pendingState).battle.victor = none ∧
      (fireResolution (9/10) false pendingState).battle.turn = Side.opponent) :=
  c5_health_victor_turn_update (9/10) false pendingState
    { side := Side.player, move := flareCascade } [] rfl
    (by norm_num [pendingState, INITIAL_STATE, PLAYER_TEAM, createPokemon, BattleState.getSide])
    rfl
    (by norm_num [pendingState, INITIAL_STATE, OPPONENT_TEAM, createPokemon,
      BattleState.getSide, Side.other])

/-- C2 (code evaluation at the failing input): submit a move, reset the
battle before the 620 ms resolution timeout fires, then let the stale
timeout fire (variation 9/10, no crit).  The callback's guard re-reads
the freshly reset state — full health, no victor — so it does NOT
discard the stale resolution: it deals 16 damage to the reset opponent,
leaving it at 254 instead of its full 270 health. -/
theorem c2_stale_resolution_hits_reset_state :
    (resetBattle (resolveTurn Side.player flareCascade initSys)).battle.opponent.hp =
      OPPONENT_TEAM.maxHp ∧
    (resetBattle (resolveTurn Side.player flareCascade initSys)).pending ≠ [] ∧
    (fireResolution (9/10) false
      (resetBattle (resolveTurn Side.player flareCascade initSys))).battle.opponent.hp = 254 ∧
    (254 : ℚ) ≠ OPPONENT_TEAM.maxHp := by
  refine ⟨rfl, ?_, ?_, ?_⟩
  · norm_num [resetBattle, resolveTurn, initSys, INITIAL_STATE, PLAYER_TEAM, OPPONENT_TEAM,
      createPokemon, BattleState.getSide]
  · norm_num [fireResolution, resetBattle, resolveTurn, initSys, INITIAL_STATE, PLAYER_TEAM,
      OPPONENT_TEAM, createPokemon, BattleState.getSide, BattleState.setSide, Side.other,
      calculateDamage, clamp, jsRound, TYPE_CHART, flareCascade]
  · norm_num [OPPONENT_TEAM, createPokemon]

/-- C7: every resolved turn produces, in order, the attack announcement,
the critical-hit line iff crit, exactly one effectiveness line iff the
effectiveness is outside [1, 1.5], and the faint announcement iff the
defender's new health is 0 — between 1 and 4 messages. -/
theorem c7_log_message_order (attacker defender : Pokemon) (move : Move)
    (crit : Bool) (effectiveness nextHp : ℚ) (h : 0 ≤ nextHp) :
    turnMessages attacker defender move crit effectiveness nextHp =
      [attacker.name ++ " used " ++ move.name ++ "!"] ++
      (if crit then ["A critical hit!"] else []) ++
      (if effectiveness > 1.5 then ["It’s super effective!"]
        else if effectiveness < 1 then ["It’s not very effective…"] else []) ++
      (if nextHp = 0 then [defender.name ++ " fainted."] else []) ∧
    1 ≤ (turnMessages attacker defender move crit effectiveness nextHp).length ∧
    (turnMessages attacker defender move crit effectiveness nextHp).length ≤ 4 := by
  have hiff : (nextHp ≤ 0) = (nextHp = 0) :=
    propext ⟨fun hle => le_antisymm hle h, fun he => le_of_eq he⟩
  have heq : turnMessages attacker defender move crit effectiveness nextHp =
      [attacker.name ++ " used " ++ move.name ++ "!"] ++
      (if crit then ["A critical hit!"] else []) ++
      (if effectiveness > 1.5 then ["It’s super effective!"]
        else if effectiveness < 1 then ["It’s not very effective…"] else []) ++
      (if nextHp = 0 then [defender.name ++ " fainted."] else []) := by
    unfold turnMessages effectMessage
    simp only [hiff]
    cases crit <;> split_ifs <;> simp [List.filterMap]
  refine ⟨heq, ?_, ?_⟩ <;> rw [heq] <;> cases crit <;> split_ifs <;> simp

/-- Witness for C7: a critical, super-effective, fainting hit produces
all four messages in order. -/
theorem c7_log_message_order_witness :
    turnMessages PLAYER_TEAM OPPONENT_TEAM flareCascade true 2 0 =
      [PLAYER_TEAM.name ++ " used " ++ flareCascade.name ++ "!"] ++
      (if true then ["A critical hit!"] else []) ++
      (if (2 : ℚ) > 1.5 then ["It’s super effective!"]
        else if (2 : ℚ) < 1 then ["It’s not very effective…"] else []) ++
      (if (0 : ℚ) = 0 then [OPPONENT_TEAM.name ++ " fainted."] else []) ∧
    1 ≤ (turnMessages PLAYER_TEAM OPPONENT_TEAM flareCascade true 2 0).length ∧
    (turnMessages PLAYER_TEAM OPPONENT_TEAM flareCascade true 2 0).length ≤ 4 :=
  c7_log_message_order PLAYER_TEAM OPPONENT_TEAM flareCascade true 2 0 le_rfl

/-- In every reachable component state the battle log holds at most 8
entries. -/
theorem battleLog_length_invariant (s : SysState) (h : Reachable s) :
    s.battleLog.length ≤ 8 := by
  induction h with
  | init => norm_num [initSys, initialLog]
  | submit side move hr ih =>
    unfold resolveTurn
    split
    · exact ih
    · exact ih
  | fire variation crit hr ih =>
    unfold fireResolution
    split
    · exact ih
    · dsimp only
      split
      · exact ih
      · simp only [List.length_take]
        exact min_le_left _ _
  | reset hr ih =>
    norm_num [resetBattle, initialLog]

/-- C8: every reachable state's battle log has at most 8 entries, and a
resolved turn's messages are prepended (most-recent-first) with the log
then truncated to its first 8 entries, discarding the oldest entries at
the end. -/
theorem c8_log_bounded_oldest_evicted :
    (∀ s : SysState, Reachable s → s.battleLog.length ≤ 8) ∧
    (∀ (variation : ℚ) (crit : Bool) (s : SysState) (p : Pending) (rest : List Pending),
      s.pending = p :: rest →
      0 < (s.battle.getSide p.side).hp →
      s.battle.victor = none →
      (fireResolution variation crit s).battleLog =
        (turnMessages (s.battle.getSide p.side) (s.battle.getSide p.side.other) p.move crit
            (calculateDamage variation crit p.move (s.battle.getSide p.side.other)).effectiveness
            (clamp ((s.battle.getSide p.side.other).hp -
              (calculateDamage variation crit p.move (s.battle.getSide p.side.other)).damage)
              0 (s.battle.getSide p.side.other).maxHp) ++
          s.battleLog).take 8) := by
  refine ⟨battleLog_length_invariant, ?_⟩
  intro variation crit s p rest hpend hatk hvic
  rw [fireResolution_accepted variation crit s p rest hpend hatk hvic]

/-- Witness for C8: the initial log is within the bound, and firing the
pending resolution of `pendingState` truncates the prepended messages. -/
theorem c8_log_bounded_oldest_evicted_witness :
    initSys.battleLog.length ≤ 8 ∧
    (fireResolution (9/10) false pendingState).battleLog =
      (turnMessages (pendingState.battle.getSide Side.player)
          (pendingState.battle.getSide Side.opponent) flareCascade false
          (calculateDamage (9/10) false flareCascade
            (pendingState.battle.getSide Side.opponent)).effectiveness
          (clamp ((pendingState.battle.getSide Side.opponent).hp -
            (calculateDamage (9/10) false flareCascade
              (pendingState.battle.getSide Side.opponent)).damage)
            0 (pendingState.battle.getSide Side.opponent).maxHp) ++
        pendingState.battleLog).take 8 :=
  ⟨c8_log_bounded_oldest_evicted.1 initSys Reachable.init,
    c8_log_bounded_oldest_evicted.2 (9/10) false pendingState
      { side := Side.player, move := flareCascade } [] rfl
      (by norm_num [pendingState, INITIAL_STATE, PLAYER_TEAM, createPokemon, BattleState.getSide])
      rfl⟩

/-- C9: the opponent policy picks the move at index floor(r × number of
moves) for a draw r in [0, 1) — always a member of the combatant's own
move list — and its effect fires only when it is the opponent's turn
and no victor is set. -/
theorem c9_opponent_policy :
    (∀ (r : ℚ) (combatant : Pokemon), 0 ≤ r → r < 1 → combatant.moves ≠ [] →
      ∃ hlt : (⌊r * (combatant.moves.length : ℚ)⌋).toNat < combatant.moves.length,
        chooseMove r combatant =
          some (combatant.moves.get ⟨(⌊r * (combatant.moves.length : ℚ)⌋).toNat, hlt⟩) ∧
        combatant.moves.get ⟨(⌊r * (combatant.moves.length : ℚ)⌋).toNat, hlt⟩ ∈
          combatant.moves) ∧
    (∀ s : SysState, opponentPolicyFires s = true →
      s.battle.turn = Side.opponent ∧ s.battle.victor = none) := by
  constructor
  · intro r combatant h0 h1 hne
    have hlen : 0 < combatant.moves.length := List.length_pos.mpr hne
    have hfl : ⌊r * (combatant.moves.length : ℚ)⌋ < (combatant.moves.length : ℤ) := by
      rw [Int.floor_lt]
      push_cast
      calc r * (combatant.moves.length : ℚ)
          < 1 * (combatant.moves.length : ℚ) := by
            apply mul_lt_mul_of_pos_right h1
            exact_mod_cast hlen
        _ = (combatant.moves.length : ℚ) := one_mul _
    have hfl0 : 0 ≤ ⌊r * (combatant.moves.length : ℚ)⌋ :=
      Int.floor_nonneg.mpr (mul_nonneg h0 (by positivity))
    have hlt : (⌊r * (combatant.moves.length : ℚ)⌋).toNat < combatant.moves.length := by
      omega
    refine ⟨hlt, ?_, List.get_mem _ _ _⟩
    simp [chooseMove, List.getElem?_eq_getElem hlt]
  · intro s h
    simp only [opponentPolicyFires, Bool.and_eq_true, decide_eq_true_eq,
      Option.isNone_iff_eq_none] at h
    exact ⟨h.1.1, h.1.2⟩

/-- Witness for C9: the draw r = 1/2 picks the third of the opponent's
four moves, and `wrongTurnState` (opponent's turn, no victor, idle)
makes the policy effect fire. -/
theorem c9_opponent_policy_witness :
    (∃ hlt : (⌊(1/2 : ℚ) * (OPPONENT_TEAM.moves.length : ℚ)⌋).toNat < OPPONENT_TEAM.moves.length,
      chooseMove (1/2) OPPONENT_TEAM =
        some (OPPONENT_TEAM.moves.get
          ⟨(⌊(1/2 : ℚ) * (OPPONENT_TEAM.moves.length : ℚ)⌋).toNat, hlt⟩) ∧
      OPPONENT_TEAM.moves.get
        ⟨(⌊(1/2 : ℚ) * (OPPONENT_TEAM.moves.length : ℚ)⌋).toNat, hlt⟩ ∈ OPPONENT_TEAM.moves) ∧
    (wrongTurnState.battle.turn = Side.opponent ∧ wrongTurnState.battle.victor = none) :=
  ⟨c9_opponent_policy.1 (1/2) OPPONENT_TEAM (by norm_num) (by norm_num)
      (by simp [OPPONENT_TEAM, createPokemon]),
    c9_opponent_policy.2 wrongTurnState rfl⟩

/-- C10: an accepted and applied resolution step changes only the
defender's current health, the turn, and possibly the victor: the
attacking combatant is untouched and every other field of the defender
(name, maxHp, types, moves, flair, energy) is unchanged; energy is 100
at creation and never mutated. -/
theorem c10_resolution_frame (variation : ℚ) (crit : Bool)
    (s : SysState) (p : Pending) (rest : List Pending)
    (hpend : s.pending = p :: rest)
    (hatk : 0 < (s.battle.getSide p.side).hp)
    (hvic : s.battle.victor = none) :
    (fireResolution variation crit s).battle.getSide p.side = s.battle.getSide p.side ∧
    ((fireResolution variation crit s).battle.getSide p.side.other).name =
      (s.battle.getSide p.side.other).name ∧
    ((fireResolution variation crit s).battle.getSide p.side.other).maxHp =
      (s.battle.getSide p.side.other).maxHp ∧
    ((fireResolution variation crit s).battle.getSide p.side.other).types =
      (s.battle.getSide p.side.other).types ∧
    ((fireResolution variation crit s).battle.getSide p.side.other).moves =
      (s.battle.getSide p.side.other).moves ∧
    ((fireResolution variation crit s).battle.getSide p.side.other).flair =
      (s.battle.getSide p.side.other).flair ∧
    ((fireResolution variation crit s).battle.getSide p.side.other).energy =
      (s.battle.getSide p.side.other).energy ∧
    PLAYER_TEAM.energy = 100 ∧ OPPONENT_TEAM.energy = 100 := by
  rw [fireResolution_accepted variation crit s p rest hpend hatk hvic]
  simp only [getSide_update_tv, getSide_setSide_self]
  refine ⟨?_, trivial, trivial, trivial, trivial, trivial, trivial, rfl, rfl⟩
  conv_lhs => rw [← Side.other_other p.side]
  rw [getSide_setSide_other, Side.other_other]

/-- Witness for C10 at the concrete pending resolution of
`pendingState`. -/
theorem c10_resolution_frame_witness :
    (fireResolution (9/10) false pendingState).battle.getSide Side.player =
      pendingState.battle.getSide Side.player ∧
    ((fireResolution (9/10) false pendingState).battle.getSide Side.opponent).name =
      (pendingState.battle.getSide Side.opponent).name ∧
    ((fireResolution (9/10) false pendingState).battle.getSide Side.opponent).maxHp =
      (pendingState.battle.getSide Side.opponent).maxHp ∧
    ((fireResolution (9/10) false pendingState).battle.getSide Side.opponent).types =
      (pendingState.battle.getSide Side.opponent).types ∧
    ((fireResolution (9/10) false pendingState).battle.getSide Side.opponent).moves =
      (pendingState.battle.getSide Side.opponent).moves ∧
    ((fireResolution (9/10) false pendingState).battle.getSide Side.opponent).flair =
      (pendingState.battle.getSide Side.opponent).flair ∧
    ((fireResolution (9/10) false pendingState).battle.getSide Side.opponent).energy =
      (pendingState.battle.getSide Side.opponent).energy ∧
    PLAYER_TEAM.energy = 100 ∧ OPPONENT_TEAM.energy = 100 :=
  c10_resolution_frame (9/10) false pendingState
    { side := Side.player, move := flareCascade } [] rfl
    (by norm_num [pendingState, INITIAL_STATE, PLAYER_TEAM, createPokemon, BattleState.getSide])
    rfl

end BattleSim
